import Mathlib

/-!
Verification development for the pumpfun sniping bot's transaction engine.

The definitions below are shallow embeddings of the TypeScript source:

* `src/services/tokenService.ts` — instruction encoding (create/buy/sell),
  slippage bounds, the pre-flight funding gate of `createToken`, and the
  no-tokens fallback of `sellTokens`;
* `src/services/transactionMonitor.ts` — `isBuyTransaction` classification
  and the signature-deduplicating monitor loop;
* `src/services/botManager.ts` — the sell latch (`isSellingTokens` /
  `someoneBought`), `sellAllTokens`, `handleSellTimeout`, the monitor
  callback with its transaction-age filter, and `calculateProfit`;
* `src/utils/retry.ts` — `withRetry`, `isRetryableError`;
* `src/utils/wallet.ts` — `saveProfitData` / `getTotalProfit`.

JavaScript `number` values (SOL balances, profits) are embedded as `ℚ`;
`BigInt` / u64 values as `ℕ`.  Buffers are `List ℕ` of byte values.
Asynchronous handlers are modelled as atomic state transitions: the
JavaScript runtime is single-threaded and runs each handler to completion
up to its first `await`, and every flag check-and-set relied on below
happens inside such a synchronous prefix (before any `await`).
-/

namespace PumpBot

/-! ## Byte-level encoding (tokenService.ts)

`Buffer.writeBigUInt64LE` stores a `BigInt` below `2 ^ 64` as eight
little-endian bytes; `Buffer.concat` is list append. -/

/-- Eight little-endian bytes of `v`, as produced by `writeBigUInt64LE`
(byte `i` is `v >> 8*i & 0xff`; the divisors are `256 ^ i` spelled as
numerals). -/
def u64LE (v : ℕ) : List ℕ :=
  [v % 256, v / 256 % 256, v / 65536 % 256, v / 16777216 % 256,
   v / 4294967296 % 256, v / 1099511627776 % 256,
   v / 281474976710656 % 256, v / 72057594037927936 % 256]

/-- Little-endian interpretation of a byte list (inverse of `u64LE` below
`2 ^ 64`); used to state what value an encoded field holds. -/
def decodeLE : List ℕ → ℕ
  | [] => 0
  | b :: bs => b + 256 * decodeLE bs

theorem decodeLE_u64LE (v : ℕ) (h : v < 18446744073709551616) :
    decodeLE (u64LE v) = v := by
  simp only [u64LE, decodeLE]
  omega

theorem u64LE_length (v : ℕ) : (u64LE v).length = 8 := rfl

/-- The pump.fun `buy` instruction discriminator
(`[102, 6, 61, 18, 1, 218, 235, 234]` in tokenService.ts and
transactionMonitor.ts). -/
def buyDiscriminator : List ℕ := [102, 6, 61, 18, 1, 218, 235, 234]

/-- The pump.fun `sell` instruction discriminator
(`[51, 230, 133, 164, 1, 127, 131, 173]` in `sellTokens`). -/
def sellDiscriminator : List ℕ := [51, 230, 133, 164, 1, 127, 131, 173]

/-- `maxSolCost = buyAmountSol + (buyAmountSol * slippageBasisPoints) / 10000n`
from `buyTokens` / `createToken` (BigInt division truncates, i.e. floor on
naturals). -/
def maxSolCost (buyAmountSol slippageBasisPoints : ℕ) : ℕ :=
  buyAmountSol + buyAmountSol * slippageBasisPoints / 10000

/-- `buyData = Buffer.concat([discriminator, amountBuffer, maxSolCostBuffer])`
from `buyTokens` / `createToken`. -/
def buyInstructionData (buyAmountSol slippageBasisPoints : ℕ) : List ℕ :=
  buyDiscriminator ++ u64LE buyAmountSol ++ u64LE (maxSolCost buyAmountSol slippageBasisPoints)

/-- `const minSolOutput = BigInt(1)` from `sellTokens` (both revisions): the
encoded minimum-output bound is the constant `1`, not a slippage-derived
value. -/
def sellMinSolOutput : ℕ := 1

/-- `data = Buffer.concat([discriminator, amountBuffer, minSolOutputBuffer])`
from `sellTokens`; `amount` is the token balance being sold. -/
def sellInstructionData (amount : ℕ) : List ℕ :=
  sellDiscriminator ++ u64LE amount ++ u64LE sellMinSolOutput

/-- Modelled from the spec: `minOutput = amount - amount*slippageBps/10000`,
floored, clamped to the smallest valid non-zero value when the computed
bound would be `≤ 0` (on naturals the truncated bound is `≤ 0` exactly when
it is `0`). -/
def specSellMinOutput (amount slippageBps : ℕ) : ℕ :=
  if amount - amount * slippageBps / 10000 = 0 then 1
  else amount - amount * slippageBps / 10000

/-! ## Transaction classification (transactionMonitor.ts)

An RPC `getTransaction` result, restricted to the fields the monitor reads
or that the spec's classification rule mentions.  Addresses are `ℕ`.
`present` is the `transaction && transaction.transaction` null check;
`metaErr` is the settlement's execution error (`meta.err`) and `deltas` the
availability/sign of token-balance deltas for the monitored mint — the
source never reads either, but the spec's rule refers to both, so the
record carries them. -/
structure TxRecord where
  present : Bool
  accountKeys : List ℕ
  instructions : List (Option (List ℕ))
  metaErr : Option Unit
  deltas : Option Bool
  deriving DecidableEq, Repr

/-- One instruction's decoded payload starts with the buy discriminator
(`ix.data` present, `data.length >= 8`, leading 8 bytes equal). -/
def hasBuyDiscriminator : Option (List ℕ) → Bool
  | none => false
  | some d => decide (8 ≤ d.length) && decide (d.take 8 = buyDiscriminator)

/-- `isBuyTransaction` from transactionMonitor.ts: null check, mint
involvement, `buyer = accountKeys[0]`, self exclusion, non-empty
instruction list, then the discriminator scan — whose failure falls through
to `return { isBuy: true, buyer }` ("assume it's a buy").  The result pairs
`isBuy` with the reported buyer. -/
def isBuyTransaction (tx : TxRecord) (mintAddress : ℕ) (walletPublicKey : Option ℕ) :
    Bool × Option ℕ :=
  if tx.present = false then (false, none)
  else if tx.accountKeys.contains mintAddress = false then (false, none)
  else
    let buyer := tx.accountKeys.headD 0
    if walletPublicKey.any (fun w => buyer == w) then (false, none)
    else if tx.instructions.isEmpty then (false, none)
    else if tx.instructions.any hasBuyDiscriminator then (true, some buyer)
    else (true, some buyer)

/-- Modelled from the spec: a record is an external purchase iff (a) it
references the monitored asset, (b) its settlement contains no execution
error, (c) the initiating address is not the excluded self address, and
(d) token-balance deltas for the monitored asset are net positive for some
account, or — as a fallback when deltas are unavailable — some instruction
payload's leading 8 bytes equal the buy discriminator. -/
def specIsExternalPurchase (tx : TxRecord) (mintAddress : ℕ) (walletPublicKey : Option ℕ) :
    Bool :=
  tx.accountKeys.contains mintAddress
    && tx.metaErr.isNone
    && !(walletPublicKey.any (fun w => tx.accountKeys.headD 0 == w))
    && (match tx.deltas with
        | some netPositive => netPositive
        | none => tx.instructions.any hasBuyDiscriminator)

/-! ## Monitor loop with deduplication (monitorTokenTransactionsWebsocket)

Both the live `onAccountChange` channel and the 500 ms initial backward
scan run the same per-signature body against the one shared
`processedSignatures` set.  The body checks membership and inserts the
signature in consecutive synchronous statements (before the `await` on
`getTransaction`), so each feed of a signature — from either channel — is
one atomic step.  `chain` is the RPC view: what `getTransaction` returns
for a signature. -/
structure MonitorState where
  processedSignatures : List ℕ
  delivered : List ℕ
  deriving DecidableEq, Repr

/-- The monitor before any signature has been fed (`new Set()`). -/
def monitorInit : MonitorState := ⟨[], []⟩

/-- One iteration of the per-signature loop body shared by both channels:
skip if seen, else mark processed, fetch, classify, and deliver to the
callback when `isBuy && buyer`. -/
def processSignature (chain : ℕ → Option TxRecord) (mintAddress : ℕ)
    (walletPublicKey : Option ℕ) (s : MonitorState) (sig : ℕ) : MonitorState :=
  if s.processedSignatures.contains sig then s
  else
    let s1 : MonitorState := ⟨sig :: s.processedSignatures, s.delivered⟩
    match chain sig with
    | none => s1
    | some tx =>
      let r := isBuyTransaction tx mintAddress walletPublicKey
      if r.1 && r.2.isSome then ⟨s1.processedSignatures, s1.delivered ++ [sig]⟩
      else s1

/-- A whole interleaving of signature feeds from the two channels. -/
def processFeed (chain : ℕ → Option TxRecord) (mintAddress : ℕ)
    (walletPublicKey : Option ℕ) (s : MonitorState) (sigs : List ℕ) : MonitorState :=
  sigs.foldl (processSignature chain mintAddress walletPublicKey) s

/-! ## Sell latch and triggers (botManager.ts)

The fields of `BotManager` that the liquidation path reads and writes,
plus two observers: `latchPasses` counts invocations of `sellAllTokens`
that get past its guard, and `sellsSubmitted` counts liquidation (sell)
transactions submitted.  `hasWalletAndMint` is the
`!this.wallet || !this.currentMint` guard.  In `sellAllTokens` the guard
check and the flag writes (`isSellingTokens`, `someoneBought`,
`clearTimeout`) are consecutive synchronous statements before the first
`await`, so each trigger invocation is modelled as one atomic step even
when both triggers fire in the same tick. -/
structure BotFlags where
  someoneBought : Bool
  isSellingTokens : Bool
  hasWalletAndMint : Bool
  sellTimerActive : Bool
  latchPasses : ℕ
  sellsSubmitted : ℕ
  deriving DecidableEq, Repr

/-- `sellAllTokens` from botManager.ts: return if already selling or
uninitialized; otherwise set both latch flags, clear the sell timer, and —
when the token balance is positive — submit the sell transaction (a zero
balance logs "No tokens to sell" and submits nothing). -/
def sellAllTokens (tokenBalance : ℕ) (s : BotFlags) : BotFlags :=
  if s.isSellingTokens || !s.hasWalletAndMint then s
  else
    { s with
      someoneBought := true
      isSellingTokens := true
      sellTimerActive := false
      latchPasses := s.latchPasses + 1
      sellsSubmitted := s.sellsSubmitted + (if 0 < tokenBalance then 1 else 0) }

/-- `handleSellTimeout` from botManager.ts: the timer body calls
`sellAllTokens('timeout')` only when neither latch flag is set. -/
def handleSellTimeout (tokenBalance : ℕ) (s : BotFlags) : BotFlags :=
  if !s.someoneBought && !s.isSellingTokens then sellAllTokens tokenBalance s else s

/-- The monitor callback installed by `startMonitoring` (botManager.ts):
compute `transactionAge = now - transaction.timestamp` (seconds, a JS
float, here `ℚ`), skip the event when the age exceeds
`maxTransactionAge`, otherwise call `sellAllTokens('external_buy')`. -/
def monitorCallback (now timestamp maxTransactionAge : ℚ) (tokenBalance : ℕ)
    (s : BotFlags) : BotFlags :=
  if now - timestamp > maxTransactionAge then s else sellAllTokens tokenBalance s

/-- The flag state set up by `startMonitoring` just before arming the
timer and the monitor: both latch flags reset, timer armed, wallet and
mint present (the function throws first otherwise). -/
def monitoringStart : BotFlags :=
  { someoneBought := false
    isSellingTokens := false
    hasWalletAndMint := true
    sellTimerActive := true
    latchPasses := 0
    sellsSubmitted := 0 }

/-! ## Errors and retry (retry.ts, tokenService.ts)

Error values thrown on the token-creation path.  `networkFailure` stands
for RPC-level failures whose messages contain one of `isRetryableError`'s
keywords (`'network error'`, `'timeout'`, `'rate limit'`, `'429'`, ...);
`insufficientFunds` is the `'Insufficient funds. Required: ...'` error of
`createToken`'s funding gate and `accountAlreadyExists` its
`'One or more accounts already exist'` error — neither of those two
messages contains any of the keywords. -/
inductive BotError
  | insufficientFunds
  | accountAlreadyExists
  | networkFailure
  deriving DecidableEq, Repr

/-- `isRetryableError` from retry.ts, evaluated on each modelled error's
message: the keyword scan accepts network-level failures and rejects the
funding-gate and account-collision messages. -/
def isRetryableError : BotError → Bool
  | BotError.networkFailure => true
  | _ => false

/-- The delay before the next attempt in `withRetry`:
`Math.min(baseDelay * exponentialBase ** (attempt - 1), maxDelay)`. -/
def retryDelay (baseDelay exponentialBase maxDelay attempt : ℕ) : ℕ :=
  min (baseDelay * exponentialBase ^ (attempt - 1)) maxDelay

/-- The loop of `withRetry` from attempt number `attempt` with `fuel`
further attempts allowed after this one: try `fn attempt`; on success
return, on failure either rethrow (when this was the last attempt) or
sleep and continue — without consulting any retryability predicate.
Returns the final outcome paired with the number of attempts executed. -/
def withRetryFrom (fn : ℕ → Except BotError α) (attempt : ℕ) :
    ℕ → Except BotError α × ℕ
  | 0 => (fn attempt, 1)
  | fuel + 1 =>
    match fn attempt with
    | Except.ok a => (Except.ok a, 1)
    | Except.error _ =>
      let r := withRetryFrom fn (attempt + 1) fuel
      (r.1, r.2 + 1)

/-- `withRetry` from retry.ts: attempts run `1, ..., maxAttempts`; config
validation guarantees `maxAttempts ≥ 1`. -/
def withRetry (fn : ℕ → Except BotError α) (maxAttempts : ℕ) :
    Except BotError α × ℕ :=
  withRetryFrom fn 1 (maxAttempts - 1)

/-! ## Funding gate of createToken (tokenService.ts, second revision)

SOL quantities are JS floats, embedded as `ℚ`; `LAMPORTS_PER_SOL = 1e9`.
`TxEffect` labels the externally visible steps of `createToken` in order;
only `signTx` / `submitTx` spend fees. -/

def LAMPORTS_PER_SOL : ℚ := 1000000000

/-- `PUMPFUN_FEE_PERCENTAGE = 0.01` (constants.ts). -/
def PUMPFUN_FEE_PERCENTAGE : ℚ := 1 / 100

/-- `TRANSACTION_FEE_BUFFER = 0.001` SOL (constants.ts). -/
def TRANSACTION_FEE_BUFFER : ℚ := 1 / 1000

inductive TxEffect
  | queryAccountInfo
  | queryRentExemption
  | queryBalance
  | queryBlockhash
  | signTx
  | submitTx
  deriving DecidableEq, Repr

/-- `requiredBalance` of `createToken` (second revision):
`rentExemption + solAmountToBuy*LAMPORTS + pumpfunFee*LAMPORTS +
transactionFees` with `pumpfunFee = solAmountToBuy * PUMPFUN_FEE_PERCENTAGE`
and `transactionFees = TRANSACTION_FEE_BUFFER * LAMPORTS`. -/
def requiredBalance (rentExemption solAmountToBuy : ℚ) : ℚ :=
  rentExemption + solAmountToBuy * LAMPORTS_PER_SOL
    + solAmountToBuy * PUMPFUN_FEE_PERCENTAGE * LAMPORTS_PER_SOL
    + TRANSACTION_FEE_BUFFER * LAMPORTS_PER_SOL

/-- `requiredBalance` of `createToken` (first revision): rent exemption
plus the purchase plus a flat `0.05 * LAMPORTS_PER_SOL` fee allowance. -/
def requiredBalanceV1 (rentExemption solAmountToBuy : ℚ) : ℚ :=
  rentExemption + solAmountToBuy * LAMPORTS_PER_SOL + (1 / 20) * LAMPORTS_PER_SOL

/-- Modelled from the spec:
`requiredFundingLamports(purchaseAmount, feeBps, rentExemptMinimum,
feeBufferLamports) = rentExemptMinimum + purchaseAmount +
purchaseAmount*feeBps + feeBufferLamports` (all in lamports, `feeBps` the
fee as a fraction). -/
def specRequiredFunding (purchaseAmount feeBps rentExemptMinimum feeBufferLamports : ℚ) : ℚ :=
  rentExemptMinimum + purchaseAmount + purchaseAmount * feeBps + feeBufferLamports

/-- `createToken` (second revision) up to transaction submission, as a
result plus the ordered trace of effects: the account-existence check, the
rent-exemption and balance queries, then the funding gate — which throws
the insufficient-funds error before the transaction is built, signed or
sent — and, when the gate passes, blockhash fetch, signing and
submission. -/
def createToken (accountsExist : Bool) (rentExemption balance solAmountToBuy : ℚ) :
    Except BotError Unit × List TxEffect :=
  if accountsExist then
    (Except.error BotError.accountAlreadyExists, [TxEffect.queryAccountInfo])
  else if balance < requiredBalance rentExemption solAmountToBuy then
    (Except.error BotError.insufficientFunds,
     [TxEffect.queryAccountInfo, TxEffect.queryRentExemption, TxEffect.queryBalance])
  else
    (Except.ok (),
     [TxEffect.queryAccountInfo, TxEffect.queryRentExemption, TxEffect.queryBalance,
      TxEffect.queryBlockhash, TxEffect.signTx, TxEffect.submitTx])

/-! ## sellTokens fallback (tokenService.ts, both revisions) -/

/-- The transaction whose confirmed signature a `sellTokens` call returns:
either a buy (with its lamport amount) or a sell (with its token
amount). -/
inductive SubmittedTx
  | buyTx (amountLamports : ℕ)
  | sellTx (tokenAmount : ℕ)
  deriving DecidableEq, Repr

/-- `BigInt(Math.floor(solAmount * LAMPORTS_PER_SOL))` from `buyTokens`. -/
def buyAmountLamports (solAmount : ℚ) : ℕ := (⌊solAmount * LAMPORTS_PER_SOL⌋).toNat

/-- `sellTokens` from tokenService.ts: when the payer has no token account,
or the token-account balance is zero, it logs a warning and returns
`buyTokens(connection, payer, mintAddress, 0.05)` — a buy of 0.05 SOL —
instead of selling; otherwise it submits the sell instruction for the full
balance. -/
def sellTokens (hasTokenAccount : Bool) (tokenAmount : ℕ) : SubmittedTx :=
  if hasTokenAccount = false then SubmittedTx.buyTx (buyAmountLamports (1 / 20))
  else if tokenAmount = 0 then SubmittedTx.buyTx (buyAmountLamports (1 / 20))
  else SubmittedTx.sellTx tokenAmount

/-! ## Profit ledger (botManager.ts calculateProfit, wallet.ts saveProfitData) -/

/-- One `CycleData` entry of the profit log (types/index.ts), balance
fields included. -/
structure CycleData where
  cycleId : ℕ
  profit : ℚ
  initialBalance : ℚ
  finalBalance : ℚ
  deriving DecidableEq, Repr

/-- The `ProfitData` persisted in `pnl/profit_log.json`. -/
structure ProfitData where
  totalProfit : ℚ
  cycles : List CycleData
  deriving DecidableEq, Repr

/-- The `{ totalProfit: 0, cycles: [] }` initial structure of
`saveProfitData`. -/
def emptyProfitData : ProfitData := ⟨0, []⟩

/-- `saveProfitData` from wallet.ts: add the profit to the running total
and push the cycle entry. -/
def saveProfitData (pd : ProfitData) (cycleId : ℕ) (profit initialBalance finalBalance : ℚ) :
    ProfitData :=
  { totalProfit := pd.totalProfit + profit
    cycles := pd.cycles ++ [⟨cycleId, profit, initialBalance, finalBalance⟩] }

/-- `calculateProfit` from botManager.ts: `profit = finalBalance -
this.initialBalance`, then `saveProfitData(cycleId, profit, mint,
initialBalance, finalBalance)`. -/
def calculateProfit (pd : ProfitData) (cycleId : ℕ) (initialBalance finalBalance : ℚ) :
    ProfitData :=
  saveProfitData pd cycleId (finalBalance - initialBalance) initialBalance finalBalance

/-- A whole run of cycles, each recorded through `calculateProfit`. -/
def runCycles (entries : List (ℕ × ℚ × ℚ)) : ProfitData :=
  entries.foldl (fun pd e => calculateProfit pd e.1 e.2.1 e.2.2) emptyProfitData

/-! ## Theorems -/

/-- C3 counterexample: at amount `1000000` and `slippageBps = 500` the
sell instruction's encoded minimum-output field is `1`, not the
`amount - amount*slippageBps/10000 = 950000` the claim states — the code
hard-codes `minSolOutput = BigInt(1)` and never computes the slippage
bound. -/
theorem sell_min_output_not_slippage_bound :
    decodeLE (List.drop 16 (sellInstructionData 1000000)) = 1
      ∧ specSellMinOutput 1000000 500 = 950000
      ∧ (1 : ℕ) ≠ 950000 := by
  refine ⟨rfl, by decide, by decide⟩

/-- C3 (amended): for every amount and every slippageBps, the sell
instruction's encoded minimum-output field (bytes 16–23, little-endian) is
the constant `1` — the smallest valid non-zero value — independent of both
arguments; in particular it is positive, hence never negative. -/
theorem sell_min_output_constant_one (amount slippageBps : ℕ) :
    decodeLE (List.drop 16 (sellInstructionData amount)) = 1
      ∧ 0 < decodeLE (List.drop 16 (sellInstructionData amount))
      ∧ decodeLE (List.drop 16 (sellInstructionData amount))
          = decodeLE (List.drop 16 (sellInstructionData slippageBps)) := by
  have h : ∀ a : ℕ, List.drop 16 (sellInstructionData a) = u64LE sellMinSolOutput :=
    fun a => rfl
  rw [h amount, h slippageBps]
  refine ⟨rfl, by decide, rfl⟩

/-- C4 counterexample: at amount `1` and `slippageBps = 1` (both valid:
the amount is positive and the slippage is within the validated
`0..10000` range) the encoded maximum cost equals the amount even though
the slippage is non-zero, refuting "equality only at slippageBps = 0":
the floor in `amount * slippageBps / 10000` erases any slippage with
`amount * slippageBps < 10000`. -/
theorem buy_max_cost_equal_at_nonzero_slippage :
    maxSolCost 1 1 = 1 ∧ (1 : ℕ) ≠ 0 := by decide

/-- C4 (amended): for every amount and slippageBps whose encoded values
fit in a u64, the buy instruction's payload is the 8-byte discriminator,
the 8-byte little-endian amount, then the 8-byte little-endian
`maxCost = amount + amount*slippageBps/10000` (floor division);
`maxCost ≥ amount` always, with equality exactly when
`amount * slippageBps < 10000` (in particular at `slippageBps = 0`). -/
theorem buy_encoding_correct (amount slippageBps : ℕ)
    (hAmount : amount < 18446744073709551616)
    (hCost : maxSolCost amount slippageBps < 18446744073709551616) :
    buyInstructionData amount slippageBps
        = buyDiscriminator ++ u64LE amount ++ u64LE (maxSolCost amount slippageBps)
      ∧ decodeLE (List.take 8 (List.drop 8 (buyInstructionData amount slippageBps))) = amount
      ∧ decodeLE (List.drop 16 (buyInstructionData amount slippageBps))
          = amount + amount * slippageBps / 10000
      ∧ amount ≤ maxSolCost amount slippageBps
      ∧ (maxSolCost amount slippageBps = amount ↔ amount * slippageBps < 10000) := by
  have htake : List.take 8 (List.drop 8 (buyInstructionData amount slippageBps))
      = u64LE amount := rfl
  have hdrop : List.drop 16 (buyInstructionData amount slippageBps)
      = u64LE (maxSolCost amount slippageBps) := rfl
  refine ⟨rfl, ?_, ?_, ?_, ?_⟩
  · rw [htake, decodeLE_u64LE amount hAmount]
  · rw [hdrop, decodeLE_u64LE _ hCost, maxSolCost]
  · exact Nat.le_add_right _ _
  · simp only [maxSolCost]
    omega

/-- C4 witness: the production-scale inputs (0.05 SOL = 50000000 lamports,
500 bps) satisfy the u64 bounds and the encoded maximum-cost field decodes
to the slippage-adjusted bound. -/
theorem buy_encoding_correct_witness :
    decodeLE (List.drop 16 (buyInstructionData 50000000 500))
        = 50000000 + 50000000 * 500 / 10000 :=
  (buy_encoding_correct 50000000 500 (by decide) (by decide)).2.2.1

/-- C9: the pre-flight funding requirement of `createToken` equals the
spec's `rentExemptMinimum + purchaseAmount + purchaseAmount*feeBps +
feeBufferLamports` (the first revision is the same formula with a zero fee
rate and a flat 0.05 SOL buffer), and whenever the payer's balance is
below it the call fails with the insufficient-funds error after only
read-only queries — no transaction is signed or submitted. -/
theorem funding_gate_correct (rentExemption solAmountToBuy balance : ℚ)
    (h : balance < requiredBalance rentExemption solAmountToBuy) :
    requiredBalance rentExemption solAmountToBuy
        = specRequiredFunding (solAmountToBuy * LAMPORTS_PER_SOL) PUMPFUN_FEE_PERCENTAGE
            rentExemption (TRANSACTION_FEE_BUFFER * LAMPORTS_PER_SOL)
      ∧ requiredBalanceV1 rentExemption solAmountToBuy
          = specRequiredFunding (solAmountToBuy * LAMPORTS_PER_SOL) 0 rentExemption
              ((1 / 20) * LAMPORTS_PER_SOL)
      ∧ (createToken false rentExemption balance solAmountToBuy).1
          = Except.error BotError.insufficientFunds
      ∧ TxEffect.signTx ∉ (createToken false rentExemption balance solAmountToBuy).2
      ∧ TxEffect.submitTx ∉ (createToken false rentExemption balance solAmountToBuy).2 := by
  refine ⟨?_, ?_, ?_, ?_, ?_⟩
  · simp only [requiredBalance, specRequiredFunding]
    ring
  · simp only [requiredBalanceV1, specRequiredFunding]
    ring
  · simp [createToken, h]
  · simp [createToken, h]
  · simp [createToken, h]

/-- C9 witness: the spec scenario — a 0.05 SOL purchase against a 0.01 SOL
(10000000 lamports) balance — trips the gate before any signing. -/
theorem funding_gate_correct_witness :
    (createToken false 1461600 10000000 (1 / 20)).1
        = Except.error BotError.insufficientFunds :=
  (funding_gate_correct 1461600 (1 / 20) 10000000 (by
    norm_num [requiredBalance, LAMPORTS_PER_SOL, PUMPFUN_FEE_PERCENTAGE,
      TRANSACTION_FEE_BUFFER])).2.2.1

/-- C10: when the payer has no token account for the mint, or the token
balance is zero, `sellTokens` does not fail and submits no sell
instruction; it instead submits a buy of 0.05 SOL (50000000 lamports) and
returns that buy's signature. -/
theorem sellTokens_no_balance_buys (hasTokenAccount : Bool) (tokenAmount : ℕ)
    (h : hasTokenAccount = false ∨ tokenAmount = 0) :
    sellTokens hasTokenAccount tokenAmount = SubmittedTx.buyTx 50000000
      ∧ ∀ n, sellTokens hasTokenAccount tokenAmount ≠ SubmittedTx.sellTx n := by
  have hb : buyAmountLamports (1 / 20) = 50000000 := by
    norm_num [buyAmountLamports, LAMPORTS_PER_SOL]
    decide
  have hmain : sellTokens hasTokenAccount tokenAmount = SubmittedTx.buyTx 50000000 := by
    rcases h with h | h
    · subst h
      rw [sellTokens, if_pos rfl, hb]
    · subst h
      cases hasTokenAccount
      · rw [sellTokens, if_pos rfl, hb]
      · rw [sellTokens, if_neg (by simp), if_pos rfl, hb]
  refine ⟨hmain, fun n => ?_⟩
  rw [hmain]
  simp

/-- C10 witness: a wallet with no token account (and a junk balance
argument) gets the 0.05 SOL buy. -/
theorem sellTokens_no_balance_buys_witness :
    sellTokens false 7 = SubmittedTx.buyTx 50000000 :=
  (sellTokens_no_balance_buys false 7 (Or.inl rfl)).1

/-- The funding gate trips on the concrete spec scenario: rent exemption
1461600 lamports, a 0.05 SOL purchase, a 0.01 SOL balance. -/
theorem createToken_gate_insufficient :
    (createToken false 1461600 10000000 (1 / 20)).1
      = Except.error BotError.insufficientFunds := by
  norm_num [createToken, requiredBalance, LAMPORTS_PER_SOL, PUMPFUN_FEE_PERCENTAGE,
    TRANSACTION_FEE_BUFFER]

/-- Constant-failure runs of the retry loop execute every remaining
attempt and finish with the error. -/
theorem withRetryFrom_const_error (e : BotError) (fuel attempt : ℕ) :
    withRetryFrom (fun _ => (Except.error e : Except BotError Unit)) attempt fuel
      = (Except.error e, fuel + 1) := by
  induction fuel generalizing attempt with
  | zero => rfl
  | succ k ih => simp [withRetryFrom, ih]

/-- C7 counterexample: the insufficient-funds error raised by
`createToken`'s funding gate is fed through the unconditional `withRetry`
wrapper that `BotManager.createNewToken` uses (`retryAttempts = 3`): all
three attempts run before the error propagates — it is retried, not
propagated immediately — even though the keyword-based retryability
predicate classifies it as non-retryable. -/
theorem insufficient_funds_retried :
    withRetry (fun _ => (createToken false 1461600 10000000 (1 / 20)).1) 3
        = (Except.error BotError.insufficientFunds, 3)
      ∧ isRetryableError BotError.insufficientFunds = false
      ∧ (3 : ℕ) ≠ 1 := by
  have hgate : (createToken false 1461600 10000000 (1 / 20)).1
      = Except.error BotError.insufficientFunds :=
    createToken_gate_insufficient
  have hfn : (fun _ : ℕ => (createToken false 1461600 10000000 (1 / 20)).1)
      = fun _ : ℕ => (Except.error BotError.insufficientFunds : Except BotError Unit) :=
    funext fun _ => hgate
  refine ⟨?_, rfl, by decide⟩
  rw [hfn, withRetry, withRetryFrom_const_error]

/-- C7 (amended): `withRetry` — the wrapper actually used on the
token-creation path — applies no retryability predicate: every error,
insufficient-funds and account-collision included, is retried until the
bounded attempt budget is exhausted and only then propagated, each backoff
delay being capped at `maxDelay`; the keyword predicate that would
distinguish network-level failures exists (`isRetryableError`, used only
by the unused `withConditionalRetry`) and accepts exactly those. -/
theorem withRetry_retries_every_error (e : BotError) (maxAttempts : ℕ)
    (h : 1 ≤ maxAttempts) (baseDelay maxDelay attempt : ℕ) :
    withRetry (fun _ => (Except.error e : Except BotError Unit)) maxAttempts
        = (Except.error e, maxAttempts)
      ∧ retryDelay baseDelay 2 maxDelay attempt ≤ maxDelay
      ∧ isRetryableError BotError.networkFailure = true := by
  refine ⟨?_, min_le_right _ _, rfl⟩
  rw [withRetry, withRetryFrom_const_error]
  have : maxAttempts - 1 + 1 = maxAttempts := by omega
  rw [this]

/-- C7 witness: an account-already-exists failure under the default
three-attempt budget is also retried to exhaustion. -/
theorem withRetry_retries_every_error_witness :
    withRetry (fun _ => (Except.error BotError.accountAlreadyExists : Except BotError Unit)) 3
        = (Except.error BotError.accountAlreadyExists, 3) :=
  (withRetry_retries_every_error BotError.accountAlreadyExists 3 (by decide) 1000 30000 2).1

/-- Folding recorded cycles through `calculateProfit` preserves the ledger
invariant: every entry's profit is its final minus initial balance, and
the running total is the sum of the entries' profits. -/
theorem runCycles_fold_invariant (entries : List (ℕ × ℚ × ℚ)) (pd : ProfitData)
    (h1 : ∀ c ∈ pd.cycles, c.profit = c.finalBalance - c.initialBalance)
    (h2 : pd.totalProfit = (pd.cycles.map CycleData.profit).sum) :
    (∀ c ∈ entries.foldl (fun acc e => calculateProfit acc e.1 e.2.1 e.2.2) pd |>.cycles,
        c.profit = c.finalBalance - c.initialBalance)
      ∧ (entries.foldl (fun acc e => calculateProfit acc e.1 e.2.1 e.2.2) pd).totalProfit
          = ((entries.foldl (fun acc e => calculateProfit acc e.1 e.2.1 e.2.2) pd).cycles.map
              CycleData.profit).sum := by
  induction entries generalizing pd with
  | nil => exact ⟨h1, h2⟩
  | cons e rest ih =>
    refine ih (calculateProfit pd e.1 e.2.1 e.2.2) ?_ ?_
    · intro c hc
      simp only [calculateProfit, saveProfitData, List.mem_append, List.mem_singleton] at hc
      rcases hc with hc | hc
      · exact h1 c hc
      · subst hc
        rfl
    · simp [calculateProfit, saveProfitData, h2]

/-- C8: for every run of cycles recorded through `calculateProfit` /
`saveProfitData`, each persisted entry's profit equals
`finalBalance - initialBalance` exactly by construction, and after every
append the persisted running total equals the sum of all recorded
profits. -/
theorem profit_ledger_correct (entries : List (ℕ × ℚ × ℚ)) :
    (∀ c ∈ (runCycles entries).cycles, c.profit = c.finalBalance - c.initialBalance)
      ∧ (runCycles entries).totalProfit
          = ((runCycles entries).cycles.map CycleData.profit).sum := by
  exact runCycles_fold_invariant entries emptyProfitData (by simp [emptyProfitData])
    (by simp [emptyProfitData])

/-- C8 witness: a two-cycle run (one gain of 3, one loss of 2) has entry
profits built from the balances and a running total of 1. -/
theorem profit_ledger_correct_witness :
    ({ cycleId := 1, profit := 3, initialBalance := 2, finalBalance := 5 } : CycleData).profit
        = ({ cycleId := 1, profit := 3, initialBalance := 2, finalBalance := 5 } :
            CycleData).finalBalance
          - ({ cycleId := 1, profit := 3, initialBalance := 2, finalBalance := 5 } :
              CycleData).initialBalance
      ∧ (runCycles [(1, 2, 5), (2, 5, 3)]).totalProfit
          = ((runCycles [(1, 2, 5), (2, 5, 3)]).cycles.map CycleData.profit).sum :=
  ⟨(profit_ledger_correct [(1, 2, 5), (2, 5, 3)]).1 ⟨1, 3, 2, 5⟩ (by
      norm_num [runCycles, calculateProfit, saveProfitData, emptyProfitData]),
   (profit_ledger_correct [(1, 2, 5), (2, 5, 3)]).2⟩

/-- C1: from the state `startMonitoring` sets up, when the sell-timeout
timer and the purchase-detection callback (with a fresh event) race in
either order — covering both firing within the same tick, since each
handler's guard and latch writes are one synchronous prefix — exactly one
invocation proceeds past the `isSellingTokens` latch, at most one sell
transaction is submitted, and the later invocation leaves the state
unchanged (a no-op). -/
theorem liquidation_single_flight (tokenBalance : ℕ) (now timestamp maxAge : ℚ)
    (hFresh : now - timestamp ≤ maxAge) :
    handleSellTimeout tokenBalance
        (monitorCallback now timestamp maxAge tokenBalance monitoringStart)
        = monitorCallback now timestamp maxAge tokenBalance monitoringStart
      ∧ monitorCallback now timestamp maxAge tokenBalance
          (handleSellTimeout tokenBalance monitoringStart)
          = handleSellTimeout tokenBalance monitoringStart
      ∧ (handleSellTimeout tokenBalance
          (monitorCallback now timestamp maxAge tokenBalance monitoringStart)).latchPasses = 1
      ∧ (monitorCallback now timestamp maxAge tokenBalance
          (handleSellTimeout tokenBalance monitoringStart)).latchPasses = 1
      ∧ (handleSellTimeout tokenBalance
          (monitorCallback now timestamp maxAge tokenBalance monitoringStart)).sellsSubmitted ≤ 1
      ∧ (monitorCallback now timestamp maxAge tokenBalance
          (handleSellTimeout tokenBalance monitoringStart)).sellsSubmitted ≤ 1 := by
  have hAge : ¬(now - timestamp > maxAge) := not_lt.mpr hFresh
  have hSell : sellAllTokens tokenBalance monitoringStart
      = { someoneBought := true, isSellingTokens := true, hasWalletAndMint := true,
          sellTimerActive := false, latchPasses := 1,
          sellsSubmitted := if 0 < tokenBalance then 1 else 0 } := by
    simp [sellAllTokens, monitoringStart]
  have hmc : monitorCallback now timestamp maxAge tokenBalance monitoringStart
      = sellAllTokens tokenBalance monitoringStart := by
    simp [monitorCallback, hAge]
  have hht : handleSellTimeout tokenBalance monitoringStart
      = sellAllTokens tokenBalance monitoringStart := by
    simp [handleSellTimeout, monitoringStart]
  have hAfterTimeout : handleSellTimeout tokenBalance
      (sellAllTokens tokenBalance monitoringStart)
      = sellAllTokens tokenBalance monitoringStart := by
    rw [hSell]
    simp [handleSellTimeout]
  have hAfterMonitor : monitorCallback now timestamp maxAge tokenBalance
      (sellAllTokens tokenBalance monitoringStart)
      = sellAllTokens tokenBalance monitoringStart := by
    rw [hSell]
    simp [monitorCallback, hAge, sellAllTokens]
  have hSubmitted : (sellAllTokens tokenBalance monitoringStart).sellsSubmitted ≤ 1 := by
    rw [hSell]
    by_cases htb : 0 < tokenBalance <;> simp [htb]
  refine ⟨?_, ?_, ?_, ?_, ?_, ?_⟩
  · rw [hmc, hAfterTimeout]
  · rw [hht, hAfterMonitor]
  · rw [hmc, hAfterTimeout, hSell]
  · rw [hht, hAfterMonitor, hSell]
  · rw [hmc, hAfterTimeout]
    exact hSubmitted
  · rw [hht, hAfterMonitor]
    exact hSubmitted

/-- C1 witness: with a 5-token balance and a 2-second-old event under a
30-second threshold, the timer firing after the monitor in the same tick
is a no-op. -/
theorem liquidation_single_flight_witness :
    handleSellTimeout 5 (monitorCallback 2 0 30 5 monitoringStart)
        = monitorCallback 2 0 30 5 monitoringStart :=
  (liquidation_single_flight 5 2 0 30 (by norm_num)).1

/-- C6: a delivered purchase event older than `maxTransactionAge` leaves
the bot state untouched (no liquidation trigger, monitoring continues);
an event within the threshold invokes `sellAllTokens`, which from the
monitoring state proceeds past the latch. -/
theorem stale_event_filter (now timestamp maxAge : ℚ) (tokenBalance : ℕ) (s : BotFlags) :
    (now - timestamp > maxAge → monitorCallback now timestamp maxAge tokenBalance s = s)
      ∧ (now - timestamp ≤ maxAge →
          monitorCallback now timestamp maxAge tokenBalance s = sellAllTokens tokenBalance s)
      ∧ (now - timestamp ≤ maxAge →
          (monitorCallback now timestamp maxAge tokenBalance monitoringStart).latchPasses = 1
            ∧ (monitorCallback now timestamp maxAge tokenBalance
                monitoringStart).isSellingTokens = true) := by
  refine ⟨fun h => ?_, fun h => ?_, fun h => ?_⟩
  · simp [monitorCallback, h]
  · simp [monitorCallback, not_lt.mpr h]
  · have hmc : monitorCallback now timestamp maxAge tokenBalance monitoringStart
        = sellAllTokens tokenBalance monitoringStart := by
      simp [monitorCallback, not_lt.mpr h]
    rw [hmc]
    simp [sellAllTokens, monitoringStart]

/-- C6 witness: the spec's scenarios — a 45-second-old event against a
30-second threshold is skipped, a 2-second-old one sets the latch. -/
theorem stale_event_filter_witness :
    monitorCallback 45 0 30 5 monitoringStart = monitoringStart
      ∧ (monitorCallback 2 0 30 5 monitoringStart).latchPasses = 1 :=
  ⟨(stale_event_filter 45 0 30 5 monitoringStart).1 (by norm_num),
   ((stale_event_filter 2 0 30 5 monitoringStart).2.2 (by norm_num)).1⟩

/-- A record for mint `3`: initiator `7` (not the excluded `5`), one
instruction whose payload lacks the buy discriminator, an execution error
in its settlement, and token-balance deltas available but not net
positive for any account. -/
def erroredTxRecord : TxRecord :=
  { present := true
    accountKeys := [7, 3]
    instructions := [some [0, 0, 0, 0, 0, 0, 0, 0, 0]]
    metaErr := some ()
    deltas := some false }

/-- C2 counterexample: `erroredTxRecord` fails the spec's conditions (b)
and (d) — its settlement holds an execution error and its deltas are
available and non-positive with no discriminator match — yet
`isBuyTransaction` classifies it as an external purchase, refuting the
claimed "if and only if". -/
theorem classification_ignores_settlement :
    (isBuyTransaction erroredTxRecord 3 (some 5)).1 = true
      ∧ specIsExternalPurchase erroredTxRecord 3 (some 5) = false := by decide

/-- C2 (amended): a record is classified as an external purchase iff it is
non-null, references the monitored mint, its first account key is not the
excluded self address, and its instruction list is non-empty — the
settlement's execution error and the token-balance deltas are never
examined (changing them never changes the classification), and the
discriminator scan only short-circuits: any remaining mint-involving
record is assumed to be a buy. -/
theorem isBuyTransaction_characterization (tx : TxRecord) (mintAddress : ℕ)
    (walletPublicKey : Option ℕ) (e : Option Unit) (d : Option Bool) :
    ((isBuyTransaction tx mintAddress walletPublicKey).1 = true ↔
        tx.present = true
          ∧ tx.accountKeys.contains mintAddress = true
          ∧ walletPublicKey.any (fun w => tx.accountKeys.headD 0 == w) = false
          ∧ tx.instructions ≠ [])
      ∧ isBuyTransaction { tx with metaErr := e, deltas := d } mintAddress walletPublicKey
          = isBuyTransaction tx mintAddress walletPublicKey := by
  refine ⟨?_, rfl⟩
  simp only [isBuyTransaction]
  split_ifs with h1 h2 h3 h4 h5 <;>
    simp_all [List.isEmpty_iff]

/-- C5 invariant: one feed of a signature through the shared
deduplication set keeps every signature's delivery count at most one and
keeps delivered signatures inside the processed set. -/
theorem processSignature_dedup_invariant (chain : ℕ → Option TxRecord) (mintAddress : ℕ)
    (walletPublicKey : Option ℕ) (s : MonitorState) (sig target : ℕ)
    (h1 : s.delivered.count target ≤ 1)
    (h2 : target ∈ s.delivered → target ∈ s.processedSignatures) :
    ((processSignature chain mintAddress walletPublicKey s sig).delivered.count target ≤ 1)
      ∧ (target ∈ (processSignature chain mintAddress walletPublicKey s sig).delivered
          → target ∈ (processSignature chain mintAddress walletPublicKey
              s sig).processedSignatures) := by
  unfold processSignature
  by_cases hmem : s.processedSignatures.contains sig
  · simp only [hmem, if_true]
    exact ⟨h1, h2⟩
  · have hsig : sig ∉ s.processedSignatures := by
      intro hc
      exact hmem (List.elem_iff.mpr hc)
    simp only [hmem, if_false, Bool.false_eq_true]
    cases hchain : chain sig with
    | none =>
      exact ⟨h1, fun hm => List.mem_cons_of_mem _ (h2 hm)⟩
    | some tx =>
      by_cases hbuy :
          ((isBuyTransaction tx mintAddress walletPublicKey).1
            && (isBuyTransaction tx mintAddress walletPublicKey).2.isSome) = true
      · simp only [hbuy, if_true]
        constructor
        · rw [List.count_append]
          by_cases ht : target = sig
          · subst ht
            have hnd : target ∉ s.delivered := fun hm => hsig (h2 hm)
            rw [List.count_eq_zero.mpr hnd]
            simp
          · have : List.count target [sig] = 0 :=
              List.count_eq_zero.mpr (by simp [ht])
            omega
        · intro hm
          rcases List.mem_append.mp hm with hm | hm
          · exact List.mem_cons_of_mem _ (h2 hm)
          · simp only [List.mem_singleton] at hm
            subst hm
            exact List.mem_cons_self _ _
      · simp only [hbuy, if_false, Bool.false_eq_true]
        exact ⟨h1, fun hm => List.mem_cons_of_mem _ (h2 hm)⟩

/-- Folding any interleaving of signature feeds preserves the
deduplication invariant. -/
theorem processFeed_dedup_invariant (chain : ℕ → Option TxRecord) (mintAddress : ℕ)
    (walletPublicKey : Option ℕ) (sigs : List ℕ) (s : MonitorState) (target : ℕ)
    (h1 : s.delivered.count target ≤ 1)
    (h2 : target ∈ s.delivered → target ∈ s.processedSignatures) :
    (processFeed chain mintAddress walletPublicKey s sigs).delivered.count target ≤ 1 := by
  induction sigs generalizing s with
  | nil => exact h1
  | cons sig rest ih =>
    have hstep := processSignature_dedup_invariant chain mintAddress walletPublicKey
      s sig target h1 h2
    exact ih (processSignature chain mintAddress walletPublicKey s sig) hstep.1 hstep.2

/-- C5: for every interleaving of signature feeds from the initial
backward scan and the live subscription — both routed through the one
shared `processedSignatures` set — each signature is delivered to the
callback at most once, and feeding an already-seen signature is an exact
no-op. -/
theorem dedup_delivers_at_most_once (chain : ℕ → Option TxRecord) (mintAddress : ℕ)
    (walletPublicKey : Option ℕ) (sigs : List ℕ) (sig : ℕ) :
    (processFeed chain mintAddress walletPublicKey monitorInit sigs).delivered.count sig ≤ 1
      ∧ ∀ s : MonitorState, s.processedSignatures.contains sig = true →
          processSignature chain mintAddress walletPublicKey s sig = s := by
  constructor
  · exact processFeed_dedup_invariant chain mintAddress walletPublicKey sigs monitorInit sig
      (by simp [monitorInit]) (by simp [monitorInit])
  · intro s h
    unfold processSignature
    rw [if_pos h]

/-- A record classified as a buy: mint `3` involved, initiator `7`, and a
payload starting with the buy discriminator. -/
def freshBuyRecord : TxRecord :=
  { present := true
    accountKeys := [7, 3]
    instructions := [some [102, 6, 61, 18, 1, 218, 235, 234, 0]]
    metaErr := none
    deltas := none }

/-- C5 witness: feeding signature `9` twice against a chain where it is a
buy delivers exactly one event, and the second feed of a seen signature
leaves the state unchanged. -/
theorem dedup_delivers_at_most_once_witness :
    ((processFeed (fun _ => some freshBuyRecord) 3 (some 5) monitorInit [9, 9]).delivered.count 9
        ≤ 1)
      ∧ processSignature (fun _ => some freshBuyRecord) 3 (some 5) ⟨[9], [9]⟩ 9 = ⟨[9], [9]⟩ :=
  ⟨(dedup_delivers_at_most_once (fun _ => some freshBuyRecord) 3 (some 5) [9, 9] 9).1,
   (dedup_delivers_at_most_once (fun _ => some freshBuyRecord) 3 (some 5) [9, 9] 9).2
     ⟨[9], [9]⟩ (by decide)⟩

end PumpBot
